import Mathlib

/-!
Verification of the bisection-method solver in `bisection_method.py`.

The solver is embedded shallowly over exact rationals: the target function is
a parameter `f : ℚ → ℚ`, the `while iteration < max_iterations` loop becomes
fuel-based recursion, and the two places where the Python script can raise an
uncaught exception (division by zero in the relative-error formula when the
midpoint is exactly `0`, and the undefined variable `c` when the loop body
never ran) are made explicit outcomes.
-/

namespace Bisection

/-- The hard-coded target function of the script: `f(x) = x³ − 4x − 9`. -/
def fRepo (x : ℚ) : ℚ := x ^ 3 - 4 * x - 9

/-- One per-pass snapshot, mirroring the Python dict
`{'iteration': iteration+1, 'a': a, 'b': b, 'c': c, 'fa': fa, 'fb': fb,
'fc': fc, 'error': error}`. -/
structure IterRecord where
  iteration : ℕ
  a : ℚ
  b : ℚ
  c : ℚ
  fa : ℚ
  fb : ℚ
  fc : ℚ
  error : ℚ
  deriving Repr, DecidableEq

/-- The midpoint stored by the most recent record, `iterations[-1]['c']`.
The default `0` is never consulted: the code reads it only when
`iteration > 0`, and every earlier pass appended a record. -/
def prevC (recs : List IterRecord) : ℚ :=
  ((recs.getLast?).map IterRecord.c).getD 0

/-- The relative error computed at the top of a pass:
`abs((c - iterations[-1]['c']) / c) * 100` when `iteration > 0`, else the
sentinel `100`.  Callers must separately rule out the `c = 0` fault. -/
def stepError (iteration : ℕ) (c : ℚ) (recs : List IterRecord) : ℚ :=
  if 0 < iteration then |(c - prevC recs) / c| * 100 else 100

/-- The record a non-faulting pass appends. -/
def stepRecord (f : ℚ → ℚ) (iteration : ℕ) (a b : ℚ)
    (recs : List IterRecord) : IterRecord :=
  let c := (a + b) / 2
  { iteration := iteration + 1, a := a, b := b, c := c,
    fa := f a, fb := f b, fc := f c,
    error := stepError iteration c recs }

/-- Outcome of one loop pass (lines 38–79 of the script). -/
inductive StepOut where
  /-- `ZeroDivisionError`: `iteration > 0` and the midpoint is exactly `0`. -/
  | fault
  /-- The convergence test fired: `return c, iterations`. -/
  | done (c : ℚ) (recs : List IterRecord)
  /-- Bracket updated, loop continues with the new `a`, `b`. -/
  | next (a b : ℚ) (recs : List IterRecord)
  deriving Repr, DecidableEq

/-- One pass of the `while` loop: compute `c = (a + b) / 2`, evaluate `f`,
compute the relative error (faulting when it divides by zero), append the
record, test `abs(fc) < tolerance or error < tolerance`, otherwise update
the bracket by `if fa * fc < 0 then b = c else a = c`. -/
def bisectStep (f : ℚ → ℚ) (tol : ℚ) (iteration : ℕ) (a b : ℚ)
    (recs : List IterRecord) : StepOut :=
  let c := (a + b) / 2
  let fa := f a
  let fc := f c
  if 0 < iteration ∧ c = 0 then .fault
  else
    let recs' := recs ++ [stepRecord f iteration a b recs]
    if |f c| < tol ∨ stepError iteration c recs < tol then .done c recs'
    else if fa * fc < 0 then .next a c recs'
    else .next c b recs'

/-- Outcome of the whole loop. -/
inductive LoopOut where
  /-- Returned from inside the loop with the convergence test satisfied. -/
  | converged (c : ℚ) (recs : List IterRecord)
  /-- `iteration` reached `max_iterations`; fell through to line 84. -/
  | exhausted (recs : List IterRecord)
  /-- An uncaught `ZeroDivisionError` escaped from inside the loop. -/
  | zeroDiv (recs : List IterRecord)
  deriving Repr, DecidableEq

/-- The `while iteration < max_iterations` loop, with `fuel` the number of
passes still allowed (`max_iterations - iteration`). -/
def bisectLoop (f : ℚ → ℚ) (tol : ℚ) :
    ℕ → ℕ → ℚ → ℚ → List IterRecord → LoopOut
  | 0, _, _, _, recs => .exhausted recs
  | fuel + 1, iteration, a, b, recs =>
    match bisectStep f tol iteration a b recs with
    | .fault => .zeroDiv recs
    | .done c recs' => .converged c recs'
    | .next a' b' recs' => bisectLoop f tol fuel (iteration + 1) a' b' recs'

/-- The records carried by a loop outcome. -/
def LoopOut.recs : LoopOut → List IterRecord
  | .converged _ recs => recs
  | .exhausted recs => recs
  | .zeroDiv recs => recs

/-- What `bisection_method` hands back to its caller.  The script returns the
pair `(c, iterations)` from BOTH the convergence exit (line 73) and the
budget-exhaustion exit (line 84), so both map to the same constructor. -/
inductive BisectResult where
  /-- `return None, None` on a failed bracket check. -/
  | invalidBracket
  /-- `return c, iterations` (from either return statement). -/
  | ok (root : ℚ) (recs : List IterRecord)
  /-- An uncaught exception (`ZeroDivisionError`, or `NameError` when the
  loop body never ran and `c` is undefined at line 84). -/
  | fault
  deriving Repr, DecidableEq

/-- The record sequence a caller receives (`None` carries none, an uncaught
exception delivers none). -/
def BisectResult.records : BisectResult → List IterRecord
  | .ok _ recs => recs
  | _ => []

/-- `bisection_method(a, b, tolerance, max_iterations)`: check
`f(a) * f(b) >= 0`, then run the loop from `iteration = 0` with an empty
record list.  On exhaustion the script returns the `c` left over from the
last pass, which is the `c` of the last record. -/
def bisection_method (f : ℚ → ℚ) (a b tol : ℚ) (maxIter : ℕ) : BisectResult :=
  if f a * f b ≥ 0 then .invalidBracket
  else
    match bisectLoop f tol maxIter 0 a b [] with
    | .converged c recs => .ok c recs
    | .exhausted recs =>
      match recs.getLast? with
      | some r => .ok r.c recs
      | none => .fault
    | .zeroDiv _ => .fault

/-- Test function for the spec's invalid-bracket scenario: `f(x) = x² + 1`. -/
def fNoRoot (x : ℚ) : ℚ := x ^ 2 + 1

/-- Linear test function `f(x) = 4x − 401` (root `100.25`). -/
def fLin401 (x : ℚ) : ℚ := 4 * x - 401

/-- Linear test function `f(x) = x − 500`. -/
def fLin500 (x : ℚ) : ℚ := x - 500

/-! ### Unfolding lemmas for single loop passes -/

lemma bisectLoop_next {f : ℚ → ℚ} {tol : ℚ} {n it : ℕ} {a b a' b' : ℚ}
    {recs recs' : List IterRecord}
    (h : bisectStep f tol it a b recs = .next a' b' recs') :
    bisectLoop f tol (n + 1) it a b recs = bisectLoop f tol n (it + 1) a' b' recs' := by
  rw [bisectLoop, h]

lemma bisectLoop_done {f : ℚ → ℚ} {tol : ℚ} {n it : ℕ} {a b c : ℚ}
    {recs recs' : List IterRecord}
    (h : bisectStep f tol it a b recs = .done c recs') :
    bisectLoop f tol (n + 1) it a b recs = .converged c recs' := by
  rw [bisectLoop, h]

lemma bisectLoop_fault {f : ℚ → ℚ} {tol : ℚ} {n it : ℕ} {a b : ℚ}
    {recs : List IterRecord}
    (h : bisectStep f tol it a b recs = .fault) :
    bisectLoop f tol (n + 1) it a b recs = .zeroDiv recs := by
  rw [bisectLoop, h]

/-! ### What each constructor of a pass outcome implies -/

lemma bisectStep_done_spec {f : ℚ → ℚ} {tol : ℚ} {it : ℕ} {a b c : ℚ}
    {recs recs' : List IterRecord}
    (h : bisectStep f tol it a b recs = .done c recs') :
    c = (a + b) / 2 ∧ recs' = recs ++ [stepRecord f it a b recs] ∧
      (|f ((a + b) / 2)| < tol ∨ stepError it ((a + b) / 2) recs < tol) := by
  simp only [bisectStep] at h
  split_ifs at h with h1 h2
  injection h with hc hr
  exact ⟨hc.symm, hr.symm, h2⟩

lemma bisectStep_next_spec {f : ℚ → ℚ} {tol : ℚ} {it : ℕ} {a b a' b' : ℚ}
    {recs recs' : List IterRecord}
    (h : bisectStep f tol it a b recs = .next a' b' recs') :
    recs' = recs ++ [stepRecord f it a b recs] ∧
      ¬(|f ((a + b) / 2)| < tol ∨ stepError it ((a + b) / 2) recs < tol) ∧
      ((f a * f ((a + b) / 2) < 0 ∧ a' = a ∧ b' = (a + b) / 2) ∨
        (¬ f a * f ((a + b) / 2) < 0 ∧ a' = (a + b) / 2 ∧ b' = b)) := by
  simp only [bisectStep] at h
  split_ifs at h with h1 h2 h3
  · injection h with ha hb hr
    exact ⟨hr.symm, h2, Or.inl ⟨h3, ha.symm, hb.symm⟩⟩
  · injection h with ha hb hr
    exact ⟨hr.symm, h2, Or.inr ⟨h3, ha.symm, hb.symm⟩⟩

lemma bisectStep_of_test {f : ℚ → ℚ} {tol : ℚ} {it : ℕ} {a b : ℚ}
    {recs : List IterRecord}
    (hnf : ¬(0 < it ∧ (a + b) / 2 = 0))
    (htest : |f ((a + b) / 2)| < tol ∨ stepError it ((a + b) / 2) recs < tol) :
    bisectStep f tol it a b recs
      = .done ((a + b) / 2) (recs ++ [stepRecord f it a b recs]) := by
  simp only [bisectStep]
  rw [if_neg hnf, if_pos htest]

/-! ### Global facts about the loop, by induction on the remaining fuel -/

/-- The loop appends at most `fuel` records: it never makes more passes than
the remaining iteration budget. -/
lemma loop_recs_length (f : ℚ → ℚ) (tol : ℚ) :
    ∀ (fuel it : ℕ) (a b : ℚ) (recs : List IterRecord),
      ((bisectLoop f tol fuel it a b recs).recs).length ≤ recs.length + fuel := by
  intro fuel
  induction fuel with
  | zero => intro it a b recs; simp [bisectLoop, LoopOut.recs]
  | succ n ih =>
    intro it a b recs
    cases hstep : bisectStep f tol it a b recs with
    | fault =>
      rw [bisectLoop_fault hstep]
      simp only [LoopOut.recs]
      omega
    | done c recs' =>
      rw [bisectLoop_done hstep]
      obtain ⟨-, hr, -⟩ := bisectStep_done_spec hstep
      simp only [LoopOut.recs, hr, List.length_append, List.length_cons,
        List.length_nil]
      omega
    | next a' b' recs' =>
      rw [bisectLoop_next hstep]
      obtain ⟨hr, -, -⟩ := bisectStep_next_spec hstep
      have hrun := ih (it + 1) a' b' recs'
      have hlen : recs'.length = recs.length + 1 := by
        rw [hr]
        simp
      omega

/-- A converged loop accepted the last appended record's midpoint, and that
record passed the convergence test. -/
lemma loop_converged_spec (f : ℚ → ℚ) (tol : ℚ) :
    ∀ (fuel it : ℕ) (a b : ℚ) (recs out : List IterRecord) (c : ℚ),
      bisectLoop f tol fuel it a b recs = .converged c out →
      ∃ r, out.getLast? = some r ∧ r.c = c ∧ r.fc = f c ∧
        (|f c| < tol ∨ r.error < tol) := by
  intro fuel
  induction fuel with
  | zero => intro it a b recs out c h; exact absurd h (by simp [bisectLoop])
  | succ n ih =>
    intro it a b recs out c h
    cases hstep : bisectStep f tol it a b recs with
    | fault =>
      rw [bisectLoop_fault hstep] at h
      exact absurd h (by simp)
    | done c' recs' =>
      rw [bisectLoop_done hstep] at h
      injection h with hc hr
      obtain ⟨hc', hrecs', htest⟩ := bisectStep_done_spec hstep
      refine ⟨stepRecord f it a b recs, ?_, ?_, ?_, ?_⟩
      · rw [← hr, hrecs']
        exact List.getLast?_concat _
      · show (a + b) / 2 = c
        rw [← hc, hc']
      · show f ((a + b) / 2) = f c
        rw [← hc, hc']
      · rw [← hc, hc']
        refine htest.imp id (fun he => ?_)
        show stepError it ((a + b) / 2) recs < tol
        exact he
    | next a' b' recs' =>
      rw [bisectLoop_next hstep] at h
      exact ih (it + 1) a' b' recs' out c h

/-- An exhausted loop made exactly `fuel` passes: one record per pass. -/
lemma loop_exhausted_spec (f : ℚ → ℚ) (tol : ℚ) :
    ∀ (fuel it : ℕ) (a b : ℚ) (recs out : List IterRecord),
      bisectLoop f tol fuel it a b recs = .exhausted out →
      out.length = recs.length + fuel := by
  intro fuel
  induction fuel with
  | zero =>
    intro it a b recs out h
    rw [bisectLoop] at h
    injection h with hr
    simp [hr.symm]
  | succ n ih =>
    intro it a b recs out h
    cases hstep : bisectStep f tol it a b recs with
    | fault =>
      rw [bisectLoop_fault hstep] at h
      exact absurd h (by simp)
    | done c' recs' =>
      rw [bisectLoop_done hstep] at h
      exact absurd h (by simp)
    | next a' b' recs' =>
      rw [bisectLoop_next hstep] at h
      obtain ⟨hr, -, -⟩ := bisectStep_next_spec hstep
      have := ih (it + 1) a' b' recs' out h
      rw [hr] at this
      simp only [List.length_append, List.length_cons, List.length_nil] at this
      omega

/-- While the bracket still has strictly opposite signs and the tolerance is
positive, every pass appends a record whose `fa`, `fb` have strictly opposite
signs and hands the loop a bracket with strictly opposite signs again. -/
lemma loop_bracket_invariant (f : ℚ → ℚ) (tol : ℚ) (htol : 0 < tol) :
    ∀ (fuel it : ℕ) (a b : ℚ) (recs : List IterRecord),
      f a * f b < 0 → (∀ r ∈ recs, r.fa * r.fb < 0) →
      ∀ r ∈ (bisectLoop f tol fuel it a b recs).recs, r.fa * r.fb < 0 := by
  intro fuel
  induction fuel with
  | zero => intro it a b recs _ hrecs; simpa [bisectLoop, LoopOut.recs] using hrecs
  | succ n ih =>
    intro it a b recs hbr hrecs
    have hnew : ∀ r ∈ recs ++ [stepRecord f it a b recs], r.fa * r.fb < 0 := by
      intro r hr
      rcases List.mem_append.1 hr with hr | hr
      · exact hrecs r hr
      · rcases List.mem_singleton.1 hr with rfl
        exact hbr
    cases hstep : bisectStep f tol it a b recs with
    | fault =>
      rw [bisectLoop_fault hstep]
      simpa [LoopOut.recs] using hrecs
    | done c' recs' =>
      rw [bisectLoop_done hstep]
      obtain ⟨-, hr, -⟩ := bisectStep_done_spec hstep
      subst hr
      simpa [LoopOut.recs] using hnew
    | next a' b' recs' =>
      rw [bisectLoop_next hstep]
      obtain ⟨hr, htest, hupd⟩ := bisectStep_next_spec hstep
      subst hr
      have hfc : f ((a + b) / 2) ≠ 0 := by
        intro h0
        exact htest (Or.inl (by rw [h0]; simpa using htol))
      have hbr' : f a' * f b' < 0 := by
        rcases hupd with ⟨hlt, ha', hb'⟩ | ⟨hge, ha', hb'⟩
        · rw [ha', hb']
          exact hlt
        · rw [ha', hb']
          have hfa : f a ≠ 0 := by
            intro h0; rw [h0, zero_mul] at hbr; exact lt_irrefl 0 hbr
          have hpos : 0 < f a * f ((a + b) / 2) :=
            lt_of_le_of_ne (not_lt.1 hge) (Ne.symm (mul_ne_zero hfa hfc))
          by_contra h4
          have h5 : 0 ≤ (f a * f a) * (f ((a + b) / 2) * f b) :=
            mul_nonneg (mul_self_nonneg _) (not_lt.1 h4)
          have h6 : (f a * f a) * (f ((a + b) / 2) * f b)
              = (f a * f ((a + b) / 2)) * (f a * f b) := by ring
          have h7 : (f a * f ((a + b) / 2)) * (f a * f b) < 0 :=
            mul_neg_of_pos_of_neg hpos hbr
          rw [h6] at h5
          exact absurd h7 (not_lt.2 h5)
      exact ih (it + 1) a' b' _ hbr' hnew

/-! ### Concrete runs, evaluated pass by pass -/

/-- Record appended by pass 1 of the reference scenario run. -/
def c9r1 : IterRecord := ⟨1, 2, 3, (5 / 2), (-9), 6, (-27 / 8), 100⟩

/-- Records after pass 1 of the reference scenario run. -/
def c9Recs1 : List IterRecord := [c9r1]

/-- Record appended by pass 2 of the reference scenario run. -/
def c9r2 : IterRecord := ⟨2, (5 / 2), 3, (11 / 4), (-27 / 8), 6, (51 / 64), (100 / 11)⟩

/-- Records after pass 2 of the reference scenario run. -/
def c9Recs2 : List IterRecord := c9Recs1 ++ [c9r2]

/-- Record appended by pass 3 of the reference scenario run. -/
def c9r3 : IterRecord := ⟨3, (5 / 2), (11 / 4), (21 / 8), (-27 / 8), (51 / 64), (-723 / 512), (100 / 21)⟩

/-- Records after pass 3 of the reference scenario run. -/
def c9Recs3 : List IterRecord := c9Recs2 ++ [c9r3]

/-- Record appended by pass 4 of the reference scenario run. -/
def c9r4 : IterRecord := ⟨4, (21 / 8), (11 / 4), (43 / 16), (-723 / 512), (51 / 64), (-1389 / 4096), (100 / 43)⟩

/-- Records after pass 4 of the reference scenario run. -/
def c9Recs4 : List IterRecord := c9Recs3 ++ [c9r4]

/-- Record appended by pass 5 of the reference scenario run. -/
def c9r5 : IterRecord := ⟨5, (43 / 16), (11 / 4), (87 / 32), (-1389 / 4096), (51 / 64), (7239 / 32768), (100 / 87)⟩

/-- Records after pass 5 of the reference scenario run. -/
def c9Recs5 : List IterRecord := c9Recs4 ++ [c9r5]

/-- Record appended by pass 6 of the reference scenario run. -/
def c9r6 : IterRecord := ⟨6, (43 / 16), (87 / 32), (173 / 64), (-1389 / 4096), (7239 / 32768), (-16011 / 262144), (100 / 173)⟩

/-- Records after pass 6 of the reference scenario run. -/
def c9Recs6 : List IterRecord := c9Recs5 ++ [c9r6]

/-- Record appended by pass 7 of the reference scenario run. -/
def c9r7 : IterRecord := ⟨7, (173 / 64), (87 / 32), (347 / 128), (-16011 / 262144), (7239 / 32768), (166563 / 2097152), (100 / 347)⟩

/-- Records after pass 7 of the reference scenario run. -/
def c9Recs7 : List IterRecord := c9Recs6 ++ [c9r7]

/-- Record appended by pass 8 of the reference scenario run. -/
def c9r8 : IterRecord := ⟨8, (173 / 64), (347 / 128), (693 / 256), (-16011 / 262144), (166563 / 2097152), (151821 / 16777216), (100 / 693)⟩

/-- Records after pass 8 of the reference scenario run. -/
def c9Recs8 : List IterRecord := c9Recs7 ++ [c9r8]

/-- Record appended by pass 9 of the reference scenario run. -/
def c9r9 : IterRecord := ⟨9, (173 / 64), (693 / 256), (1385 / 512), (-16011 / 262144), (151821 / 16777216), (-3495687 / 134217728), (20 / 277)⟩

/-- Records after pass 9 of the reference scenario run. -/
def c9Recs9 : List IterRecord := c9Recs8 ++ [c9r9]

/-- Record appended by pass 10 of the reference scenario run. -/
def c9r10 : IterRecord := ⟨10, (1385 / 512), (693 / 256), (2771 / 1024), (-3495687 / 134217728), (151821 / 16777216), (-9132789 / 1073741824), (100 / 2771)⟩

/-- Records after pass 10 of the reference scenario run. -/
def c9Recs10 : List IterRecord := c9Recs9 ++ [c9r10]

/-- Record appended by pass 11 of the reference scenario run. -/
def c9r11 : IterRecord := ⟨11, (2771 / 1024), (693 / 256), (5543 / 2048), (-9132789 / 1073741824), (151821 / 16777216), (2318391 / 8589934592), (100 / 5543)⟩

/-- Records after pass 11 of the reference scenario run. -/
def c9Recs11 : List IterRecord := c9Recs10 ++ [c9r11]

/-- Record appended by pass 12 of the reference scenario run. -/
def c9r12 : IterRecord := ⟨12, (2771 / 1024), (5543 / 2048), (11085 / 4096), (-9132789 / 1073741824), (2318391 / 8589934592), (-283008939 / 68719476736), (20 / 2217)⟩

/-- Records after pass 12 of the reference scenario run. -/
def c9Recs12 : List IterRecord := c9Recs11 ++ [c9r12]

/-- Record appended by pass 13 of the reference scenario run. -/
def c9r13 : IterRecord := ⟨13, (11085 / 4096), (5543 / 2048), (22171 / 8192), (-283008939 / 68719476736), (2318391 / 8589934592), (-1057913757 / 549755813888), (100 / 22171)⟩

/-- Records after pass 13 of the reference scenario run. -/
def c9Recs13 : List IterRecord := c9Recs12 ++ [c9r13]

/-- Record appended by pass 14 of the reference scenario run. -/
def c9r14 : IterRecord := ⟨14, (22171 / 8192), (5543 / 2048), (44343 / 16384), (-1057913757 / 549755813888), (2318391 / 8589934592), (-3638279961 / 4398046511104), (100 / 44343)⟩

/-- Records after pass 14 of the reference scenario run. -/
def c9Recs14 : List IterRecord := c9Recs13 ++ [c9r14]

/-- Record appended by pass 15 of the reference scenario run. -/
def c9r15 : IterRecord := ⟨15, (44343 / 16384), (5543 / 2048), (88687 / 32768), (-3638279961 / 4398046511104), (2318391 / 8589934592), (-9805321137 / 35184372088832), (100 / 88687)⟩

/-- Records after pass 15 of the reference scenario run. -/
def c9Recs15 : List IterRecord := c9Recs14 ++ [c9r15]

/-- Record appended by pass 16 of the reference scenario run. -/
def c9r16 : IterRecord := ⟨16, (88687 / 32768), (5543 / 2048), (177375 / 65536), (-9805321137 / 35184372088832), (2318391 / 8589934592), (-1237298529 / 281474976710656), (4 / 7095)⟩

/-- Records after pass 16 of the reference scenario run. -/
def c9Recs16 : List IterRecord := c9Recs15 ++ [c9r16]

lemma c9_step1 :
    bisectStep fRepo (1 / 10000) 0 2 3 ([] : List IterRecord) = .next (5 / 2) 3 c9Recs1 := by
  norm_num [bisectStep, stepError, stepRecord, fRepo, c9Recs1, c9r1,
    List.append_right_inj, abs_of_pos, abs_of_nonpos, abs_of_nonneg, abs_of_neg]

lemma c9_prev2 : prevC c9Recs1 = (5 / 2) := rfl

lemma c9_step2 :
    bisectStep fRepo (1 / 10000) 1 (5 / 2) 3 c9Recs1 = .next (5 / 2) (11 / 4) c9Recs2 := by
  norm_num [bisectStep, stepError, stepRecord, fRepo, c9Recs2, c9r2, c9_prev2,
    List.append_right_inj, abs_of_pos, abs_of_nonpos, abs_of_nonneg, abs_of_neg]

lemma c9_prev3 : prevC c9Recs2 = (11 / 4) := rfl

lemma c9_step3 :
    bisectStep fRepo (1 / 10000) 2 (5 / 2) (11 / 4) c9Recs2 = .next (21 / 8) (11 / 4) c9Recs3 := by
  norm_num [bisectStep, stepError, stepRecord, fRepo, c9Recs3, c9r3, c9_prev3,
    List.append_right_inj, abs_of_pos, abs_of_nonpos, abs_of_nonneg, abs_of_neg]

lemma c9_prev4 : prevC c9Recs3 = (21 / 8) := rfl

lemma c9_step4 :
    bisectStep fRepo (1 / 10000) 3 (21 / 8) (11 / 4) c9Recs3 = .next (43 / 16) (11 / 4) c9Recs4 := by
  norm_num [bisectStep, stepError, stepRecord, fRepo, c9Recs4, c9r4, c9_prev4,
    List.append_right_inj, abs_of_pos, abs_of_nonpos, abs_of_nonneg, abs_of_neg]

lemma c9_prev5 : prevC c9Recs4 = (43 / 16) := rfl

lemma c9_step5 :
    bisectStep fRepo (1 / 10000) 4 (43 / 16) (11 / 4) c9Recs4 = .next (43 / 16) (87 / 32) c9Recs5 := by
  norm_num [bisectStep, stepError, stepRecord, fRepo, c9Recs5, c9r5, c9_prev5,
    List.append_right_inj, abs_of_pos, abs_of_nonpos, abs_of_nonneg, abs_of_neg]

lemma c9_prev6 : prevC c9Recs5 = (87 / 32) := rfl

lemma c9_step6 :
    bisectStep fRepo (1 / 10000) 5 (43 / 16) (87 / 32) c9Recs5 = .next (173 / 64) (87 / 32) c9Recs6 := by
  norm_num [bisectStep, stepError, stepRecord, fRepo, c9Recs6, c9r6, c9_prev6,
    List.append_right_inj, abs_of_pos, abs_of_nonpos, abs_of_nonneg, abs_of_neg]

lemma c9_prev7 : prevC c9Recs6 = (173 / 64) := rfl

lemma c9_step7 :
    bisectStep fRepo (1 / 10000) 6 (173 / 64) (87 / 32) c9Recs6 = .next (173 / 64) (347 / 128) c9Recs7 := by
  norm_num [bisectStep, stepError, stepRecord, fRepo, c9Recs7, c9r7, c9_prev7,
    List.append_right_inj, abs_of_pos, abs_of_nonpos, abs_of_nonneg, abs_of_neg]

lemma c9_prev8 : prevC c9Recs7 = (347 / 128) := rfl

lemma c9_step8 :
    bisectStep fRepo (1 / 10000) 7 (173 / 64) (347 / 128) c9Recs7 = .next (173 / 64) (693 / 256) c9Recs8 := by
  norm_num [bisectStep, stepError, stepRecord, fRepo, c9Recs8, c9r8, c9_prev8,
    List.append_right_inj, abs_of_pos, abs_of_nonpos, abs_of_nonneg, abs_of_neg]

lemma c9_prev9 : prevC c9Recs8 = (693 / 256) := rfl

lemma c9_step9 :
    bisectStep fRepo (1 / 10000) 8 (173 / 64) (693 / 256) c9Recs8 = .next (1385 / 512) (693 / 256) c9Recs9 := by
  norm_num [bisectStep, stepError, stepRecord, fRepo, c9Recs9, c9r9, c9_prev9,
    List.append_right_inj, abs_of_pos, abs_of_nonpos, abs_of_nonneg, abs_of_neg]

lemma c9_prev10 : prevC c9Recs9 = (1385 / 512) := rfl

lemma c9_step10 :
    bisectStep fRepo (1 / 10000) 9 (1385 / 512) (693 / 256) c9Recs9 = .next (2771 / 1024) (693 / 256) c9Recs10 := by
  norm_num [bisectStep, stepError, stepRecord, fRepo, c9Recs10, c9r10, c9_prev10,
    List.append_right_inj, abs_of_pos, abs_of_nonpos, abs_of_nonneg, abs_of_neg]

lemma c9_prev11 : prevC c9Recs10 = (2771 / 1024) := rfl

lemma c9_step11 :
    bisectStep fRepo (1 / 10000) 10 (2771 / 1024) (693 / 256) c9Recs10 = .next (2771 / 1024) (5543 / 2048) c9Recs11 := by
  norm_num [bisectStep, stepError, stepRecord, fRepo, c9Recs11, c9r11, c9_prev11,
    List.append_right_inj, abs_of_pos, abs_of_nonpos, abs_of_nonneg, abs_of_neg]

lemma c9_prev12 : prevC c9Recs11 = (5543 / 2048) := rfl

lemma c9_step12 :
    bisectStep fRepo (1 / 10000) 11 (2771 / 1024) (5543 / 2048) c9Recs11 = .next (11085 / 4096) (5543 / 2048) c9Recs12 := by
  norm_num [bisectStep, stepError, stepRecord, fRepo, c9Recs12, c9r12, c9_prev12,
    List.append_right_inj, abs_of_pos, abs_of_nonpos, abs_of_nonneg, abs_of_neg]

lemma c9_prev13 : prevC c9Recs12 = (11085 / 4096) := rfl

lemma c9_step13 :
    bisectStep fRepo (1 / 10000) 12 (11085 / 4096) (5543 / 2048) c9Recs12 = .next (22171 / 8192) (5543 / 2048) c9Recs13 := by
  norm_num [bisectStep, stepError, stepRecord, fRepo, c9Recs13, c9r13, c9_prev13,
    List.append_right_inj, abs_of_pos, abs_of_nonpos, abs_of_nonneg, abs_of_neg]

lemma c9_prev14 : prevC c9Recs13 = (22171 / 8192) := rfl

lemma c9_step14 :
    bisectStep fRepo (1 / 10000) 13 (22171 / 8192) (5543 / 2048) c9Recs13 = .next (44343 / 16384) (5543 / 2048) c9Recs14 := by
  norm_num [bisectStep, stepError, stepRecord, fRepo, c9Recs14, c9r14, c9_prev14,
    List.append_right_inj, abs_of_pos, abs_of_nonpos, abs_of_nonneg, abs_of_neg]

lemma c9_prev15 : prevC c9Recs14 = (44343 / 16384) := rfl

lemma c9_step15 :
    bisectStep fRepo (1 / 10000) 14 (44343 / 16384) (5543 / 2048) c9Recs14 = .next (88687 / 32768) (5543 / 2048) c9Recs15 := by
  norm_num [bisectStep, stepError, stepRecord, fRepo, c9Recs15, c9r15, c9_prev15,
    List.append_right_inj, abs_of_pos, abs_of_nonpos, abs_of_nonneg, abs_of_neg]

lemma c9_prev16 : prevC c9Recs15 = (88687 / 32768) := rfl

lemma c9_step16 :
    bisectStep fRepo (1 / 10000) 15 (88687 / 32768) (5543 / 2048) c9Recs15 = .done (177375 / 65536) c9Recs16 := by
  norm_num [bisectStep, stepError, stepRecord, fRepo, c9Recs16, c9r16, c9_prev16,
    List.append_right_inj, abs_of_pos, abs_of_nonpos, abs_of_nonneg, abs_of_neg]

/-- Full evaluation of the reference scenario run. -/
lemma c9_loop :
    bisectLoop fRepo (1 / 10000) 100 0 2 3 [] = .converged (177375 / 65536) c9Recs16 := by
  rw [show (100:ℕ) = 99 + 1 from rfl, bisectLoop_next c9_step1]
  rw [show (0:ℕ) + 1 = 1 from rfl]
  rw [show (99:ℕ) = 98 + 1 from rfl, bisectLoop_next c9_step2]
  rw [show (1:ℕ) + 1 = 2 from rfl]
  rw [show (98:ℕ) = 97 + 1 from rfl, bisectLoop_next c9_step3]
  rw [show (2:ℕ) + 1 = 3 from rfl]
  rw [show (97:ℕ) = 96 + 1 from rfl, bisectLoop_next c9_step4]
  rw [show (3:ℕ) + 1 = 4 from rfl]
  rw [show (96:ℕ) = 95 + 1 from rfl, bisectLoop_next c9_step5]
  rw [show (4:ℕ) + 1 = 5 from rfl]
  rw [show (95:ℕ) = 94 + 1 from rfl, bisectLoop_next c9_step6]
  rw [show (5:ℕ) + 1 = 6 from rfl]
  rw [show (94:ℕ) = 93 + 1 from rfl, bisectLoop_next c9_step7]
  rw [show (6:ℕ) + 1 = 7 from rfl]
  rw [show (93:ℕ) = 92 + 1 from rfl, bisectLoop_next c9_step8]
  rw [show (7:ℕ) + 1 = 8 from rfl]
  rw [show (92:ℕ) = 91 + 1 from rfl, bisectLoop_next c9_step9]
  rw [show (8:ℕ) + 1 = 9 from rfl]
  rw [show (91:ℕ) = 90 + 1 from rfl, bisectLoop_next c9_step10]
  rw [show (9:ℕ) + 1 = 10 from rfl]
  rw [show (90:ℕ) = 89 + 1 from rfl, bisectLoop_next c9_step11]
  rw [show (10:ℕ) + 1 = 11 from rfl]
  rw [show (89:ℕ) = 88 + 1 from rfl, bisectLoop_next c9_step12]
  rw [show (11:ℕ) + 1 = 12 from rfl]
  rw [show (88:ℕ) = 87 + 1 from rfl, bisectLoop_next c9_step13]
  rw [show (12:ℕ) + 1 = 13 from rfl]
  rw [show (87:ℕ) = 86 + 1 from rfl, bisectLoop_next c9_step14]
  rw [show (13:ℕ) + 1 = 14 from rfl]
  rw [show (86:ℕ) = 85 + 1 from rfl, bisectLoop_next c9_step15]
  rw [show (14:ℕ) + 1 = 15 from rfl]
  rw [show (85:ℕ) = 84 + 1 from rfl, bisectLoop_done c9_step16]

/-- Record appended by pass 1 of the division-by-zero run. -/
def c5r1 : IterRecord := ⟨1, (-9), 3, (-3), (-702), 6, (-24), 100⟩

/-- Records after pass 1 of the division-by-zero run. -/
def c5Recs1 : List IterRecord := [c5r1]

lemma c5_step1 :
    bisectStep fRepo (1 / 10000) 0 (-9) 3 ([] : List IterRecord) = .next (-3) 3 c5Recs1 := by
  norm_num [bisectStep, stepError, stepRecord, fRepo, c5Recs1, c5r1,
    List.append_right_inj, abs_of_pos, abs_of_nonpos, abs_of_nonneg, abs_of_neg]

lemma c5_prev2 : prevC c5Recs1 = (-3) := rfl

lemma c5_fault :
    bisectStep fRepo (1 / 10000) 1 (-3) 3 c5Recs1 = .fault := by
  norm_num [bisectStep]

/-- Full evaluation of the division-by-zero run. -/
lemma c5_loop :
    bisectLoop fRepo (1 / 10000) 100 0 (-9) 3 [] = .zeroDiv c5Recs1 := by
  rw [show (100:ℕ) = 99 + 1 from rfl, bisectLoop_next c5_step1]
  rw [show (0:ℕ) + 1 = 1 from rfl]
  rw [show (99:ℕ) = 98 + 1 from rfl, bisectLoop_fault c5_fault]

/-- Record appended by pass 1 of the sentinel-tolerance run. -/
def c4xr1 : IterRecord := ⟨1, 0, 2000, 1000, (-500), 1500, 500, 100⟩

/-- Records after pass 1 of the sentinel-tolerance run. -/
def c4xRecs1 : List IterRecord := [c4xr1]

lemma c4x_step1 :
    bisectStep fLin500 200 0 0 2000 ([] : List IterRecord) = .done 1000 c4xRecs1 := by
  norm_num [bisectStep, stepError, stepRecord, fLin500, c4xRecs1, c4xr1,
    List.append_right_inj, abs_of_pos, abs_of_nonpos, abs_of_nonneg, abs_of_neg]

/-- Full evaluation of the sentinel-tolerance run. -/
lemma c4x_loop :
    bisectLoop fLin500 200 100 0 0 2000 [] = .converged 1000 c4xRecs1 := by
  rw [show (100:ℕ) = 99 + 1 from rfl, bisectLoop_done c4x_step1]

/-- Record appended by pass 1 of the error-criterion run. -/
def c3xr1 : IterRecord := ⟨1, 100, 102, 101, (-1), 7, 3, 100⟩

/-- Records after pass 1 of the error-criterion run. -/
def c3xRecs1 : List IterRecord := [c3xr1]

/-- Record appended by pass 2 of the error-criterion run. -/
def c3xr2 : IterRecord := ⟨2, 100, 101, (201 / 2), (-1), 3, 1, (100 / 201)⟩

/-- Records after pass 2 of the error-criterion run. -/
def c3xRecs2 : List IterRecord := c3xRecs1 ++ [c3xr2]

lemma c3x_step1 :
    bisectStep fLin401 1 0 100 102 ([] : List IterRecord) = .next 100 101 c3xRecs1 := by
  norm_num [bisectStep, stepError, stepRecord, fLin401, c3xRecs1, c3xr1,
    List.append_right_inj, abs_of_pos, abs_of_nonpos, abs_of_nonneg, abs_of_neg]

lemma c3x_prev2 : prevC c3xRecs1 = 101 := rfl

lemma c3x_step2 :
    bisectStep fLin401 1 1 100 101 c3xRecs1 = .done (201 / 2) c3xRecs2 := by
  norm_num [bisectStep, stepError, stepRecord, fLin401, c3xRecs2, c3xr2, c3x_prev2,
    List.append_right_inj, abs_of_pos, abs_of_nonpos, abs_of_nonneg, abs_of_neg]

/-- Full evaluation of the error-criterion run. -/
lemma c3x_loop :
    bisectLoop fLin401 1 100 0 100 102 [] = .converged (201 / 2) c3xRecs2 := by
  rw [show (100:ℕ) = 99 + 1 from rfl, bisectLoop_next c3x_step1]
  rw [show (0:ℕ) + 1 = 1 from rfl]
  rw [show (99:ℕ) = 98 + 1 from rfl, bisectLoop_done c3x_step2]

/-- Record appended by pass 1 of the budget-exhausted run. -/
def c8ar1 : IterRecord := ⟨1, 100, 102, 101, (-1), 7, 3, 100⟩

/-- Records after pass 1 of the budget-exhausted run. -/
def c8aRecs1 : List IterRecord := [c8ar1]

lemma c8a_step1 :
    bisectStep fLin401 1 0 100 102 ([] : List IterRecord) = .next 100 101 c8aRecs1 := by
  norm_num [bisectStep, stepError, stepRecord, fLin401, c8aRecs1, c8ar1,
    List.append_right_inj, abs_of_pos, abs_of_nonpos, abs_of_nonneg, abs_of_neg]

/-- Full evaluation of the budget-exhausted run. -/
lemma c8a_loop :
    bisectLoop fLin401 1 1 0 100 102 [] = .exhausted c8aRecs1 := by
  rw [show (1:ℕ) = 0 + 1 from rfl, bisectLoop_next c8a_step1]
  rw [show (0:ℕ) + 1 = 1 from rfl]
  rfl

/-- Record appended by pass 1 of the loose-tolerance run. -/
def c8br1 : IterRecord := ⟨1, 100, 102, 101, (-1), 7, 3, 100⟩

/-- Records after pass 1 of the loose-tolerance run. -/
def c8bRecs1 : List IterRecord := [c8br1]

lemma c8b_step1 :
    bisectStep fLin401 4 0 100 102 ([] : List IterRecord) = .done 101 c8bRecs1 := by
  norm_num [bisectStep, stepError, stepRecord, fLin401, c8bRecs1, c8br1,
    List.append_right_inj, abs_of_pos, abs_of_nonpos, abs_of_nonneg, abs_of_neg]

/-- Full evaluation of the loose-tolerance run. -/
lemma c8b_loop :
    bisectLoop fLin401 4 1 0 100 102 [] = .converged 101 c8bRecs1 := by
  rw [show (1:ℕ) = 0 + 1 from rfl, bisectLoop_done c8b_step1]

/-! ## The claims -/

/-- Claim C1: whenever `f(low) * f(high) ≥ 0`, `bisection_method` returns the
invalid-bracket failure immediately, with no loop pass and an empty record
sequence. -/
theorem c1_invalid_bracket (f : ℚ → ℚ) (a b tol : ℚ) (maxIter : ℕ)
    (h : f a * f b ≥ 0) :
    bisection_method f a b tol maxIter = .invalidBracket ∧
      (bisection_method f a b tol maxIter).records = [] := by
  have hres : bisection_method f a b tol maxIter = .invalidBracket := by
    rw [bisection_method, if_pos h]
  refine ⟨hres, ?_⟩
  rw [hres]
  rfl

/-- Claim C1 at the spec's concrete scenario `f(x) = x² + 1` on `[0, 1]`. -/
theorem c1_invalid_bracket_witness :
    bisection_method fNoRoot 0 1 (1 / 10000) 100 = .invalidBracket ∧
      (bisection_method fNoRoot 0 1 (1 / 10000) 100).records = [] :=
  c1_invalid_bracket fNoRoot 0 1 (1 / 10000) 100 (by norm_num [fNoRoot])

/-- Claim C2: a loop pass exits successfully exactly when
`|f(mid)| < tolerance` or that pass's relative error is below tolerance; on
that exit the returned root is `mid`, and the appended record carries `mid`,
`f(mid)` and the 1-based iteration index. -/
theorem c2_success_iff_test (f : ℚ → ℚ) (tol : ℚ) (fuel it : ℕ) (a b : ℚ)
    (recs : List IterRecord) (hnf : ¬(0 < it ∧ (a + b) / 2 = 0)) :
    (bisectStep f tol it a b recs
        = .done ((a + b) / 2) (recs ++ [stepRecord f it a b recs])
      ↔ (|f ((a + b) / 2)| < tol ∨ stepError it ((a + b) / 2) recs < tol)) ∧
    ((|f ((a + b) / 2)| < tol ∨ stepError it ((a + b) / 2) recs < tol) →
      bisectLoop f tol (fuel + 1) it a b recs
        = .converged ((a + b) / 2) (recs ++ [stepRecord f it a b recs])) ∧
    (stepRecord f it a b recs).c = (a + b) / 2 ∧
    (stepRecord f it a b recs).fc = f ((a + b) / 2) ∧
    (stepRecord f it a b recs).iteration = it + 1 := by
  refine ⟨⟨fun hdone => (bisectStep_done_spec hdone).2.2,
    fun htest => bisectStep_of_test hnf htest⟩,
    fun htest => bisectLoop_done (bisectStep_of_test hnf htest), rfl, rfl, rfl⟩

/-- Claim C2 at the first pass of the loose-tolerance run. -/
theorem c2_success_iff_test_witness :
    (bisectStep fLin401 4 0 100 102 []
        = .done ((100 + 102) / 2) ([] ++ [stepRecord fLin401 0 100 102 []])
      ↔ (|fLin401 ((100 + 102) / 2)| < 4 ∨
          stepError 0 ((100 + 102) / 2) [] < 4)) ∧
    ((|fLin401 ((100 + 102) / 2)| < 4 ∨ stepError 0 ((100 + 102) / 2) [] < 4) →
      bisectLoop fLin401 4 (0 + 1) 0 100 102 []
        = .converged ((100 + 102) / 2) ([] ++ [stepRecord fLin401 0 100 102 []])) ∧
    (stepRecord fLin401 0 100 102 []).c = (100 + 102) / 2 ∧
    (stepRecord fLin401 0 100 102 []).fc = fLin401 ((100 + 102) / 2) ∧
    (stepRecord fLin401 0 100 102 []).iteration = 0 + 1 :=
  c2_success_iff_test fLin401 4 0 0 100 102 [] (by simp)

/-- Claim C3 counterexample: for `f(x) = 4x − 401` on `[100, 102]` with
tolerance `1` and budget `100`, the solver stops at pass 2 — the budget is
not exhausted — yet the accepted `mid = 201/2` has `|f(mid)| = 1 ≥ tolerance`
(the relative-error criterion fired instead). -/
theorem c3_counterexample :
    fLin401 100 * fLin401 102 < 0 ∧
    bisectLoop fLin401 1 100 0 100 102 [] = .converged (201 / 2) c3xRecs2 ∧
    ¬ |fLin401 (201 / 2)| < 1 ∧
    c3xRecs2.length = 2 ∧ (2 : ℕ) < 100 := by
  refine ⟨by norm_num [fLin401], c3x_loop, by norm_num [fLin401], rfl, by norm_num⟩

/-- Claim C3 (amended): the loop makes at most `max_iterations` passes, and a
successful exit accepts the last record's midpoint, which passed
`|f(mid)| < tolerance` OR `error < tolerance` — the error criterion can
accept a `mid` with `|f(mid)| ≥ tolerance`. -/
theorem c3_amended (f : ℚ → ℚ) (a b tol : ℚ) (maxIter : ℕ) :
    ((bisectLoop f tol maxIter 0 a b []).recs).length ≤ maxIter ∧
    (∀ c out, bisectLoop f tol maxIter 0 a b [] = .converged c out →
      ∃ r, out.getLast? = some r ∧ r.c = c ∧ r.fc = f c ∧
        (|f c| < tol ∨ r.error < tol)) := by
  refine ⟨?_, fun c out h => loop_converged_spec f tol maxIter 0 a b [] out c h⟩
  have h := loop_recs_length f tol maxIter 0 a b []
  simpa using h

/-- Claim C3 (amended) at the reference run: 16 ≤ 100 passes, and the
accepted midpoint satisfied the function-value criterion. -/
theorem c3_amended_witness :
    c9Recs16.length ≤ 100 ∧
    (|fRepo (177375 / 65536)| < 1 / 10000 ∨ c9r16.error < 1 / 10000) := by
  have h := c3_amended fRepo 2 3 (1 / 10000) 100
  have h1 := h.1
  rw [c9_loop] at h1
  obtain ⟨r, hr, -, -, htest⟩ := h.2 (177375 / 65536) c9Recs16 c9_loop
  have hr' : r = c9r16 := by
    have heq : c9Recs16.getLast? = some c9r16 := rfl
    rw [heq] at hr
    injection hr with hv
    exact hv.symm
  exact ⟨h1, by rw [← hr']; exact htest⟩

/-- Claim C4 counterexample: for `f(x) = x − 500` on `[0, 2000]` with
tolerance `200`, the very first pass terminates the solver although
`|f(mid)| = 500 ≥ tolerance`: it short-circuits solely on the sentinel
error `100 < 200`. -/
theorem c4_counterexample :
    fLin500 0 * fLin500 2000 < 0 ∧
    bisectLoop fLin500 200 100 0 0 2000 [] = .converged 1000 c4xRecs1 ∧
    ¬ |fLin500 1000| < 200 ∧
    c4xr1.error = 100 ∧ (100 : ℚ) < 200 := by
  exact ⟨by norm_num [fLin500], c4x_loop, by norm_num [fLin500], rfl, by norm_num⟩

/-- Claim C4 (amended): the first pass records the sentinel error `100`;
provided `tolerance ≤ 100`, the first pass never exits on the error
criterion alone; and every later pass with midpoint `≠ 0` records
`|mid − mid_prev| / |mid| × 100` against the previous record's midpoint. -/
theorem c4_amended (f : ℚ → ℚ) (tol a b : ℚ) (recs recs₀ : List IterRecord)
    (r₀ : IterRecord) (it : ℕ) :
    (stepRecord f 0 a b recs).error = 100 ∧
    (tol ≤ 100 → ∀ c recs', bisectStep f tol 0 a b recs = .done c recs' →
      |f c| < tol) ∧
    ((a + b) / 2 ≠ 0 →
      (stepRecord f (it + 1) a b (recs₀ ++ [r₀])).error
        = |(a + b) / 2 - r₀.c| / |(a + b) / 2| * 100) := by
  refine ⟨rfl, ?_, ?_⟩
  · intro htol c recs' hdone
    obtain ⟨hc, -, htest⟩ := bisectStep_done_spec hdone
    rcases htest with hfc | herr
    · rw [hc]
      exact hfc
    · have h100 : stepError 0 ((a + b) / 2) recs = 100 := rfl
      rw [h100] at herr
      exact absurd (herr.trans_le htol) (lt_irrefl 100)
  · intro hc0
    have hlast : prevC (recs₀ ++ [r₀]) = r₀.c := by
      simp [prevC, List.getLast?_concat]
    show stepError (it + 1) ((a + b) / 2) (recs₀ ++ [r₀]) = _
    simp [stepError, hlast, abs_div]

/-- Claim C4 (amended) at concrete passes of the evaluated runs. -/
theorem c4_amended_witness :
    (stepRecord fRepo 0 2 3 []).error = 100 ∧
    |fLin401 101| < 4 ∧
    (stepRecord fRepo 1 (5 / 2) 3 ([] ++ [c9r1])).error
      = |(5 / 2 + 3) / 2 - c9r1.c| / |(5 / 2 + 3) / 2| * 100 := by
  refine ⟨(c4_amended fRepo 4 2 3 [] [] c9r1 0).1, ?_, ?_⟩
  · exact (c4_amended fLin401 4 100 102 [] [] c9r1 0).2.1 (by norm_num) 101
      c8bRecs1 c8b_step1
  · exact (c4_amended fRepo 4 (5 / 2) 3 [] [] c9r1 0).2.2 (by norm_num)

/-- Claim C5: on `f(x) = x³ − 4x − 9` with bracket `[−9, 3]` the second pass
has midpoint exactly `0`; the script divides by zero in the relative-error
formula and the call raises instead of returning a result value. -/
theorem c5_zero_denominator_fault :
    fRepo (-9) * fRepo 3 < 0 ∧
    bisectLoop fRepo (1 / 10000) 100 0 (-9) 3 [] = .zeroDiv c5Recs1 ∧
    bisection_method fRepo (-9) 3 (1 / 10000) 100 = .fault := by
  have hnot : ¬ fRepo (-9) * fRepo 3 ≥ 0 := by norm_num [fRepo]
  refine ⟨by norm_num [fRepo], c5_loop, ?_⟩
  simp only [bisection_method, if_neg hnot, c5_loop]

/-- Claim C6: on every non-terminal pass, `high := mid` when
`f(low)·f(mid) < 0` and `low := mid` otherwise; in particular a zero product
routes to the `[mid, high]` branch. -/
theorem c6_update_rule (f : ℚ → ℚ) (tol : ℚ) (it : ℕ) (a b a' b' : ℚ)
    (recs recs' : List IterRecord)
    (h : bisectStep f tol it a b recs = .next a' b' recs') :
    (f a * f ((a + b) / 2) < 0 → a' = a ∧ b' = (a + b) / 2) ∧
    (¬ f a * f ((a + b) / 2) < 0 → a' = (a + b) / 2 ∧ b' = b) ∧
    (f a * f ((a + b) / 2) = 0 → a' = (a + b) / 2 ∧ b' = b) := by
  obtain ⟨-, -, hupd⟩ := bisectStep_next_spec h
  rcases hupd with ⟨hlt, ha', hb'⟩ | ⟨hge, ha', hb'⟩
  · refine ⟨fun _ => ⟨ha', hb'⟩, fun hn => absurd hlt hn, fun he => ?_⟩
    rw [he] at hlt
    exact absurd hlt (lt_irrefl 0)
  · exact ⟨fun hl => absurd hl hge, fun _ => ⟨ha', hb'⟩, fun _ => ⟨ha', hb'⟩⟩

/-- Claim C6 at pass 2 of the reference run (a `high := mid` pass). -/
theorem c6_update_rule_witness :
    (fRepo (5 / 2) * fRepo ((5 / 2 + 3) / 2) < 0 →
      (5 / 2 : ℚ) = 5 / 2 ∧ (11 / 4 : ℚ) = (5 / 2 + 3) / 2) ∧
    (¬ fRepo (5 / 2) * fRepo ((5 / 2 + 3) / 2) < 0 →
      (5 / 2 : ℚ) = (5 / 2 + 3) / 2 ∧ (11 / 4 : ℚ) = 3) ∧
    (fRepo (5 / 2) * fRepo ((5 / 2 + 3) / 2) = 0 →
      (5 / 2 : ℚ) = (5 / 2 + 3) / 2 ∧ (11 / 4 : ℚ) = 3) :=
  c6_update_rule fRepo (1 / 10000) 1 (5 / 2) 3 (5 / 2) (11 / 4)
    c9Recs1 c9Recs2 c9_step2

/-- Claim C7: every bracket update halves the width exactly:
`high' − low' = (high − low) / 2`, with `mid` the arithmetic mean. -/
theorem c7_halving (f : ℚ → ℚ) (tol : ℚ) (it : ℕ) (a b a' b' : ℚ)
    (recs recs' : List IterRecord)
    (h : bisectStep f tol it a b recs = .next a' b' recs') :
    b' - a' = (b - a) / 2 := by
  obtain ⟨-, -, hupd⟩ := bisectStep_next_spec h
  rcases hupd with ⟨-, ha', hb'⟩ | ⟨-, ha', hb'⟩ <;> rw [ha', hb'] <;> ring

/-- Claim C7 at pass 2 of the reference run. -/
theorem c7_halving_witness : (11 / 4 : ℚ) - 5 / 2 = (3 - 5 / 2) / 2 :=
  c7_halving fRepo (1 / 10000) 1 (5 / 2) 3 (5 / 2) (11 / 4)
    c9Recs1 c9Recs2 c9_step2

/-- Claim C8 counterexample: the same bracket `[100, 102]` of
`f(x) = 4x − 401` with `max_iterations = 1` exhausts the budget at
tolerance `1` (the single pass fails the test) but converges at tolerance
`4` — and `bisection_method` returns the IDENTICAL value in both cases, so
the returned result carries no flag distinguishing budget exhaustion from
convergence. -/
theorem c8_counterexample :
    bisection_method fLin401 100 102 1 1 = bisection_method fLin401 100 102 4 1 ∧
    bisectLoop fLin401 1 1 0 100 102 [] = .exhausted c8aRecs1 ∧
    bisectLoop fLin401 4 1 0 100 102 [] = .converged 101 c8bRecs1 ∧
    ¬ (|fLin401 101| < 1 ∨ c8ar1.error < 1) := by
  have hnot : ¬ fLin401 100 * fLin401 102 ≥ 0 := by norm_num [fLin401]
  have ha : bisection_method fLin401 100 102 1 1 = .ok 101 c8aRecs1 := by
    simp only [bisection_method, if_neg hnot, c8a_loop]
    rfl
  have hb : bisection_method fLin401 100 102 4 1 = .ok 101 c8bRecs1 := by
    simp only [bisection_method, if_neg hnot, c8b_loop]
  refine ⟨?_, c8a_loop, c8b_loop, by norm_num [fLin401, c8ar1]⟩
  rw [ha, hb]
  rfl

/-- Claim C8 (amended): when the loop exhausts `max_iterations`, the solver
returns the last record's midpoint with exactly `max_iterations` records —
but in the same `(c, iterations)` shape as a success, with no flag in the
returned value. -/
theorem c8_amended (f : ℚ → ℚ) (a b tol : ℚ) (maxIter : ℕ)
    (recs : List IterRecord) (hmax : 1 ≤ maxIter) (hbr : f a * f b < 0)
    (hex : bisectLoop f tol maxIter 0 a b [] = .exhausted recs) :
    recs.length = maxIter ∧
    bisection_method f a b tol maxIter = .ok (prevC recs) recs := by
  have hlen : recs.length = maxIter := by
    have h := loop_exhausted_spec f tol maxIter 0 a b [] recs hex
    simpa using h
  refine ⟨hlen, ?_⟩
  have hnot : ¬ f a * f b ≥ 0 := not_le.2 hbr
  cases hlast : recs.getLast? with
  | none =>
    have : recs = [] := List.getLast?_eq_none_iff.1 hlast
    rw [this] at hlen
    simp at hlen
    omega
  | some r =>
    have hp : prevC recs = r.c := by simp [prevC, hlast]
    simp only [bisection_method, if_neg hnot, hex, hlast, hp]

/-- Claim C8 (amended) at the budget-exhausted run: one pass, one record. -/
theorem c8_amended_witness :
    c8aRecs1.length = 1 ∧
    bisection_method fLin401 100 102 1 1 = .ok (prevC c8aRecs1) c8aRecs1 :=
  c8_amended fLin401 100 102 1 1 c8aRecs1 (by norm_num)
    (by norm_num [fLin401]) c8a_loop

/-- Claim C9 counterexample: the reference run does converge, but to
`177375/65536 ≈ 2.706528`, which is NOT within the tolerance `0.0001` of the
claimed root `2.706421`. -/
theorem c9_counterexample :
    bisectLoop fRepo (1 / 10000) 100 0 2 3 [] = .converged (177375 / 65536) c9Recs16 ∧
    ¬ |(177375 / 65536 : ℚ) - 2706421 / 1000000| < 1 / 10000 := by
  refine ⟨c9_loop, ?_⟩
  rw [not_lt, le_abs]
  left
  norm_num

/-- Claim C9 (amended): on `f(x) = x³ − 4x − 9`, `[2, 3]`, tolerance
`0.0001`, budget `100`, the solver converges in 16 < 20 iterations to
`177375/65536 ≈ 2.706528` with `|f(root)| < 0.0001`. -/
theorem c9_reference_scenario :
    bisection_method fRepo 2 3 (1 / 10000) 100 = .ok (177375 / 65536) c9Recs16 ∧
    c9Recs16.length = 16 ∧ (16 : ℕ) < 20 ∧
    |(177375 / 65536 : ℚ) - 2706528 / 1000000| < 1 / 100000 ∧
    |fRepo (177375 / 65536)| < 1 / 10000 := by
  have hnot : ¬ fRepo 2 * fRepo 3 ≥ 0 := by norm_num [fRepo]
  refine ⟨?_, rfl, by norm_num, ?_, ?_⟩
  · simp only [bisection_method, if_neg hnot, c9_loop]
  · rw [abs_lt]
    constructor <;> norm_num
  · rw [abs_lt]
    constructor <;> norm_num [fRepo]

/-- Claim C10: with a positive tolerance and a strictly sign-changing
bracket, every appended record stores endpoint function values of strictly
opposite signs: `fa · fb < 0`. -/
theorem c10_records_bracket (f : ℚ → ℚ) (a b tol : ℚ) (maxIter : ℕ)
    (htol : 0 < tol) (hbr : f a * f b < 0) :
    ∀ r ∈ (bisectLoop f tol maxIter 0 a b []).recs, r.fa * r.fb < 0 :=
  loop_bracket_invariant f tol htol maxIter 0 a b [] hbr (by simp)

/-- Claim C10 at the first record of the reference run. -/
theorem c10_records_bracket_witness : c9r1.fa * c9r1.fb < 0 := by
  have h := c10_records_bracket fRepo 2 3 (1 / 10000) 100 (by norm_num)
    (by norm_num [fRepo])
  rw [c9_loop] at h
  exact h c9r1 (by simp [LoopOut.recs, c9Recs16, c9Recs15, c9Recs14, c9Recs13,
    c9Recs12, c9Recs11, c9Recs10, c9Recs9, c9Recs8, c9Recs7, c9Recs6, c9Recs5,
    c9Recs4, c9Recs3, c9Recs2, c9Recs1])

end Bisection
